import Mathlib

/-!
Shallow embedding of the AI-Booking-Agent repository (backend), covering the
availability computation (`backend/app/services/calendar_service.py`), the
conversation engine (`backend/app/services/agent_service.py`) and the time
parser (`backend/app/agents/tools.py`), together with theorems settling the
spec claims about them.

Conventions of the embedding:
* Python `datetime` values are embedded as `Int` minutes since a fixed epoch
  (2024-01-01T00:00Z); `timedelta(minutes=k)` is addition of `k`.  All
  datetimes in the relevant code paths are UTC and minute-granular.
* A busy period or emitted slot `{"start": ..., "end": ...}` is an `TimeRange`
  (`end` is a reserved word in Lean, so the field is named `stop`).
* Fallible code (`raise ValueError`) is embedded as `Except String`.
-/

/-- A half-open time range in minutes: embeds the `{"start", "end"}` dicts of
`calendar_service.py` (busy periods and emitted free slots).  The Python key
`end` is spelled `stop` because `end` is reserved in Lean. -/
structure TimeRange where
  start : Int
  stop : Int
deriving Repr, DecidableEq

namespace MockCalendarService

/-- Busy check of one candidate against all busy periods in
`MockCalendarService.get_free_slots` (lines 57-64): `is_free` stays `True`
iff no busy period satisfies `slot_start < busy_end and slot_end > busy_start`
(the `break` on the first conflict is an early exit with the same result). -/
def slotIsFree (slotStart slotEnd : Int) (busy : List TimeRange) : Bool :=
  busy.all (fun b => !(slotStart < b.stop && slotEnd > b.start))

/-- The `while current + timedelta(minutes=duration_minutes) <= end_dt` loop of
`MockCalendarService.get_free_slots` (lines 52-72): emit the candidate
`[current, current + duration)` when it is free, then advance by 15 minutes. -/
def freeSlotsLoop (current endDt dur : Int) (busy : List TimeRange) : List TimeRange :=
  if current + dur ≤ endDt then
    (if slotIsFree current (current + dur) busy then [⟨current, current + dur⟩] else [])
      ++ freeSlotsLoop (current + 15) endDt dur busy
  else []
termination_by (endDt + 15 - dur - current).toNat
decreasing_by simp_wf; omega

/-- `MockCalendarService.get_free_slots(start_date, end_date, duration_minutes)`
(lines 37-75).  The ISO-8601 parsing of the two date strings is embedded by
taking the parsed values directly; the instance state `self.mock_busy_times`
is the explicit `busy` argument (its initial value is `mock_busy_times`
below). -/
def get_free_slots (startDt endDt dur : Int) (busy : List TimeRange) : List TimeRange :=
  freeSlotsLoop startDt endDt dur busy

/-- The constant `self.mock_busy_times` set in `MockCalendarService.__init__`
(lines 31-35), as minutes since 2024-01-01T00:00Z:
2024-01-15 is day 14 and 2024-01-16 is day 15 of the epoch year. -/
def mock_busy_times : List TimeRange :=
  [⟨14 * 1440 + 9 * 60, 14 * 1440 + 10 * 60⟩,
   ⟨14 * 1440 + 14 * 60, 14 * 1440 + 15 * 60 + 30⟩,
   ⟨15 * 1440 + 11 * 60, 15 * 1440 + 12 * 60⟩]

/-- `MockCalendarService.get_available_slots(target_date, duration)`
(lines 111-120): replaces the time of `target_date` by 09:00 and 17:00 and
calls `get_free_slots`.  `dayStart` is the midnight minute of the target
date. -/
def get_available_slots (dayStart dur : Int) (busy : List TimeRange) : List TimeRange :=
  get_free_slots (dayStart + 9 * 60) (dayStart + 17 * 60) dur busy

end MockCalendarService

namespace CalendarService

/-- The early-exit busy scan of `CalendarService.get_free_slots`
(lines 271-277), run over the busy periods sorted by start: `break` (free) as
soon as `slot_end <= busy["start"]`, report a conflict when
`slot_start < busy["end"] and slot_end > busy["start"]`, otherwise continue. -/
def slotIsFreeSorted (slotStart slotEnd : Int) : List TimeRange → Bool
  | [] => true
  | b :: rest =>
    if slotEnd ≤ b.start then true
    else if slotStart < b.stop && slotEnd > b.start then false
    else slotIsFreeSorted slotStart slotEnd rest

/-- `busy_periods_sorted = sorted(..., key=lambda b: b["start"])`
(lines 256-265): a stable sort of the busy periods by start time. -/
def sortBusyPeriods (busy : List TimeRange) : List TimeRange :=
  busy.mergeSort (fun a b => a.start ≤ b.start)

/-- The emission loop of `CalendarService.get_free_slots` (lines 267-283),
identical to the mock loop except that the busy check early-exits on the
sorted list. -/
def freeSlotsLoop (current endDt dur : Int) (busySorted : List TimeRange) : List TimeRange :=
  if current + dur ≤ endDt then
    (if slotIsFreeSorted current (current + dur) busySorted
     then [⟨current, current + dur⟩] else [])
      ++ freeSlotsLoop (current + 15) endDt dur busySorted
  else []
termination_by (endDt + 15 - dur - current).toNat
decreasing_by simp_wf; omega

/-- `CalendarService.get_free_slots` on the real (non-mock) path
(lines 220-285).  Inputs are embedded post-parsing (start, end, duration as
minutes); `busy` is the list fetched from the free/busy API (lines 237-249).
The defensive validation raises `ValueError`, embedded as `Except.error` with
the source's message; the `isinstance` checks hold by typing. -/
def get_free_slots (startDt endDt dur : Int) (busy : List TimeRange) :
    Except String (List TimeRange) :=
  if dur ≤ 0 then .error "duration_minutes must be a positive integer."
  else if endDt ≤ startDt then .error "end_date must be after start_date."
  else .ok (freeSlotsLoop startDt endDt dur (sortBusyPeriods busy))

end CalendarService

/-! Helper lemmas about the slot loops. -/

/-- No-overlap property: every interval of `MockCalendarService.freeSlotsLoop`
passes `slotIsFree` against the full busy list. -/
theorem MockCalendarService.mockFreeSlotsLoop_free (current endDt dur : Int)
    (busy : List TimeRange) :
    ∀ s ∈ MockCalendarService.freeSlotsLoop current endDt dur busy,
      MockCalendarService.slotIsFree s.start s.stop busy = true ∧
      s.stop - s.start = dur := by
  induction current, endDt, dur, busy using MockCalendarService.freeSlotsLoop.induct with
  | case1 current endDt dur busy hle ih =>
    intro s hs
    rw [MockCalendarService.freeSlotsLoop, if_pos hle] at hs
    rcases List.mem_append.mp hs with h | h
    · by_cases hf : MockCalendarService.slotIsFree current (current + dur) busy = true
      · simp only [hf, if_true, List.mem_singleton] at h
        subst h
        exact ⟨hf, by ring⟩
      · simp only [hf, if_false, List.not_mem_nil] at h
        simp at h
    · exact ih s h
  | case2 current endDt dur busy hle =>
    intro s hs
    rw [MockCalendarService.freeSlotsLoop, if_neg hle] at hs
    simp at hs

/-- Every interval of `CalendarService.freeSlotsLoop` passes the sorted busy
scan and has length exactly `dur`. -/
theorem CalendarService.calFreeSlotsLoop_free (current endDt dur : Int)
    (busySorted : List TimeRange) :
    ∀ s ∈ CalendarService.freeSlotsLoop current endDt dur busySorted,
      CalendarService.slotIsFreeSorted s.start s.stop busySorted = true ∧
      s.stop - s.start = dur := by
  induction current, endDt, dur, busySorted using CalendarService.freeSlotsLoop.induct with
  | case1 current endDt dur busySorted hle ih =>
    intro s hs
    rw [CalendarService.freeSlotsLoop, if_pos hle] at hs
    rcases List.mem_append.mp hs with h | h
    · by_cases hf : CalendarService.slotIsFreeSorted current (current + dur) busySorted = true
      · simp only [hf, if_true, List.mem_singleton] at h
        subst h
        exact ⟨hf, by ring⟩
      · simp only [hf, if_false, List.not_mem_nil] at h
        simp at h
    · exact ih s h
  | case2 current endDt dur busySorted hle =>
    intro s hs
    rw [CalendarService.freeSlotsLoop, if_neg hle] at hs
    simp at hs

/-- `slotIsFree` literally states non-overlap with every busy interval. -/
theorem MockCalendarService.slotIsFree_no_overlap {s e : Int} {busy : List TimeRange}
    (h : MockCalendarService.slotIsFree s e busy = true) :
    ∀ b ∈ busy, e ≤ b.start ∨ b.stop ≤ s := by
  intro b hb
  have := (List.all_eq_true.mp h) b hb
  simp only [Bool.not_eq_true', Bool.and_eq_false_iff, decide_eq_false_iff_not,
    not_lt] at this
  rcases this with h1 | h2
  · right; exact h1
  · left; omega

/-- On a list sorted by start time, the early-exit scan `slotIsFreeSorted`
returning `true` implies non-overlap with every member: the `break` on
`slot_end <= busy.start` is sound because every later busy period starts no
earlier. -/
theorem CalendarService.slotIsFreeSorted_no_overlap {s e : Int} :
    ∀ {l : List TimeRange}, l.Pairwise (fun a b => a.start ≤ b.start) →
      CalendarService.slotIsFreeSorted s e l = true →
      ∀ b ∈ l, e ≤ b.start ∨ b.stop ≤ s := by
  intro l
  induction l with
  | nil => intro _ _ b hb; simp at hb
  | cons b0 rest ih =>
    intro hsorted hfree b hb
    rw [CalendarService.slotIsFreeSorted] at hfree
    rcases List.pairwise_cons.mp hsorted with ⟨hb0, hrest⟩
    by_cases h1 : e ≤ b0.start
    · rcases List.mem_cons.mp hb with rfl | hmem
      · left; exact h1
      · left; exact le_trans h1 (hb0 b hmem)
    · rw [if_neg h1] at hfree
      by_cases h2 : (decide (s < b0.stop) && decide (e > b0.start)) = true
      · rw [if_pos h2] at hfree; exact absurd hfree (by simp)
      · rw [if_neg h2] at hfree
        rcases List.mem_cons.mp hb with hb1 | hmem
        · subst hb1
          simp only [Bool.and_eq_true, decide_eq_true_eq, not_and, not_lt] at h2
          right
          by_cases hs : s < b.stop
          · exfalso; have := h2 hs; omega
          · omega
        · exact ih hrest hfree b hmem

/-- The sorted busy list is a permutation of the input and is pairwise
ordered by start time. -/
theorem CalendarService.sortBusyPeriods_spec (busy : List TimeRange) :
    (∀ b, b ∈ CalendarService.sortBusyPeriods busy ↔ b ∈ busy) ∧
    (CalendarService.sortBusyPeriods busy).Pairwise (fun a b => a.start ≤ b.start) := by
  constructor
  · intro b
    exact (List.mergeSort_perm busy _).mem_iff
  · have h := @List.sorted_mergeSort TimeRange
      (fun a b : TimeRange => decide (a.start ≤ b.start))
      (fun a b c h1 h2 => by simp_all; omega)
      (fun a b => by simp [Int.le_total])
      busy
    unfold CalendarService.sortBusyPeriods
    refine h.imp ?_
    intro a b hab
    simpa using hab

/-- C1: for every availability computation with a valid window and positive
duration, every returned slot does not overlap any supplied busy interval:
`s.end <= b.start` or `s.start >= b.end`.  Stated for both the real
`CalendarService.get_free_slots` path and `MockCalendarService.get_free_slots`. -/
theorem C1_slots_no_overlap (startDt endDt dur : Int) (busy : List TimeRange)
    (hdur : 0 < dur) (hwin : startDt < endDt) :
    (∀ slots, CalendarService.get_free_slots startDt endDt dur busy = .ok slots →
      ∀ s ∈ slots, ∀ b ∈ busy, s.stop ≤ b.start ∨ b.stop ≤ s.start) ∧
    (∀ s ∈ MockCalendarService.get_free_slots startDt endDt dur busy,
      ∀ b ∈ busy, s.stop ≤ b.start ∨ b.stop ≤ s.start) := by
  constructor
  · intro slots hok s hs b hb
    rw [CalendarService.get_free_slots, if_neg (by omega), if_neg (by omega),
      Except.ok.injEq] at hok
    subst hok
    obtain ⟨hfree, _⟩ := CalendarService.calFreeSlotsLoop_free _ _ _ _ s hs
    obtain ⟨hmem, hsort⟩ := CalendarService.sortBusyPeriods_spec busy
    exact CalendarService.slotIsFreeSorted_no_overlap hsort hfree b ((hmem b).mpr hb)
  · intro s hs b hb
    obtain ⟨hfree, _⟩ := MockCalendarService.mockFreeSlotsLoop_free _ _ _ _ s hs
    exact MockCalendarService.slotIsFree_no_overlap hfree b hb

/-- Witness for C1: window 09:00-17:00 (minutes 540-1020), duration 60, busy
interval 10:00-11:00. -/
theorem C1_slots_no_overlap_witness :
    (0 : Int) < 60 ∧ (540 : Int) < 1020 ∧
    ((∀ slots, CalendarService.get_free_slots 540 1020 60 [⟨600, 660⟩] = .ok slots →
        ∀ s ∈ slots, ∀ b ∈ [(⟨600, 660⟩ : TimeRange)], s.stop ≤ b.start ∨ b.stop ≤ s.start) ∧
      (∀ s ∈ MockCalendarService.get_free_slots 540 1020 60 [⟨600, 660⟩],
        ∀ b ∈ [(⟨600, 660⟩ : TimeRange)], s.stop ≤ b.start ∨ b.stop ≤ s.start)) :=
  ⟨by decide, by decide, C1_slots_no_overlap 540 1020 60 [⟨600, 660⟩] (by decide) (by decide)⟩

/-- C2: every emitted slot has `end - start` equal to the requested duration
exactly, for both availability computations. -/
theorem C2_slot_duration (startDt endDt dur : Int) (busy : List TimeRange)
    (hdur : 0 < dur) (hwin : startDt < endDt) :
    (∀ slots, CalendarService.get_free_slots startDt endDt dur busy = .ok slots →
      ∀ s ∈ slots, s.stop - s.start = dur) ∧
    (∀ s ∈ MockCalendarService.get_free_slots startDt endDt dur busy,
      s.stop - s.start = dur) := by
  constructor
  · intro slots hok s hs
    rw [CalendarService.get_free_slots, if_neg (by omega), if_neg (by omega),
      Except.ok.injEq] at hok
    subst hok
    exact (CalendarService.calFreeSlotsLoop_free _ _ _ _ s hs).2
  · intro s hs
    exact (MockCalendarService.mockFreeSlotsLoop_free _ _ _ _ s hs).2

/-- Witness for C2 at the same concrete inputs as the C1 witness. -/
theorem C2_slot_duration_witness :
    (0 : Int) < 60 ∧ (540 : Int) < 1020 ∧
    ((∀ slots, CalendarService.get_free_slots 540 1020 60 [⟨600, 660⟩] = .ok slots →
        ∀ s ∈ slots, s.stop - s.start = 60) ∧
      (∀ s ∈ MockCalendarService.get_free_slots 540 1020 60 [⟨600, 660⟩],
        s.stop - s.start = 60)) :=
  ⟨by decide, by decide, C2_slot_duration 540 1020 60 [⟨600, 660⟩] (by decide) (by decide)⟩

unseal CalendarService.freeSlotsLoop List.merge List.mergeSort in
/-- C5 counterexample: the claim says duration ≤ 0 or duration ≥ window length
yields an empty list and no error.  At duration 0 the real
`CalendarService.get_free_slots` raises a `ValueError` instead, and at
duration exactly equal to the window length (480 minutes on a 0-480 window)
it returns one slot rather than an empty list. -/
theorem C5_counterexample :
    CalendarService.get_free_slots 540 1020 0 []
        = .error "duration_minutes must be a positive integer." ∧
    CalendarService.get_free_slots 0 480 480 [] = .ok [⟨0, 480⟩] :=
  ⟨rfl, rfl⟩

/-- C5 amended: with duration ≤ 0 the real service raises the
`duration_minutes` `ValueError`; with positive duration and an empty or
inverted window it raises the `end_date` `ValueError`; with positive duration
strictly larger than the window length both services return an empty list
without error. -/
theorem C5_degenerate_inputs (startDt endDt dur : Int) (busy : List TimeRange) :
    (dur ≤ 0 → CalendarService.get_free_slots startDt endDt dur busy
        = .error "duration_minutes must be a positive integer.") ∧
    (0 < dur → endDt ≤ startDt → CalendarService.get_free_slots startDt endDt dur busy
        = .error "end_date must be after start_date.") ∧
    (0 < dur → endDt - startDt < dur → startDt < endDt →
        CalendarService.get_free_slots startDt endDt dur busy = .ok []) ∧
    (0 < dur → endDt - startDt < dur →
        MockCalendarService.get_free_slots startDt endDt dur busy = []) := by
  refine ⟨?_, ?_, ?_, ?_⟩
  · intro h
    rw [CalendarService.get_free_slots, if_pos (by omega)]
  · intro h1 h2
    rw [CalendarService.get_free_slots, if_neg (by omega), if_pos (by omega)]
  · intro h1 h2 h3
    rw [CalendarService.get_free_slots, if_neg (by omega), if_neg (by omega),
      CalendarService.freeSlotsLoop, if_neg (by omega)]
  · intro h1 h2
    rw [MockCalendarService.get_free_slots, MockCalendarService.freeSlotsLoop,
      if_neg (by omega)]

/-- Witness for C5 (amended): duration 0 raises; duration 481 on the
480-minute window 540-1020 returns empty for both services. -/
theorem C5_degenerate_inputs_witness :
    ((0 : Int) ≤ 0 ∧ CalendarService.get_free_slots 540 1020 0 []
        = .error "duration_minutes must be a positive integer.") ∧
    (CalendarService.get_free_slots 540 1020 481 [] = .ok [] ∧
      MockCalendarService.get_free_slots 540 1020 481 [] = []) :=
  ⟨⟨by decide, (C5_degenerate_inputs 540 1020 0 []).1 (by decide)⟩,
   (C5_degenerate_inputs 540 1020 481 []).2.2.1 (by decide) (by decide) (by decide),
   (C5_degenerate_inputs 540 1020 481 []).2.2.2 (by decide) (by decide)⟩

set_option maxRecDepth 10000 in
unseal MockCalendarService.freeSlotsLoop in
/-- C6: for the 09:00-17:00 window (minutes 540-1020), duration 60 and no
busy intervals, `MockCalendarService.get_free_slots` returns exactly 29 slots
starting at 09:00, 09:15, ... up to 16:00 in 15-minute steps, in increasing
start-time order (the explicit right-hand list). -/
theorem C6_empty_calendar :
    MockCalendarService.get_free_slots 540 1020 60 []
      = (List.range 29).map (fun i => ⟨540 + 15 * i, 600 + 15 * i⟩) := by
  decide

/-! Data model of `backend/app/models/schemas.py` and embedding of the
conversation engine `BookingAgent` of `backend/app/services/agent_service.py`. -/

/-- `ConversationMessage`: one history entry with a role ("user" or
"assistant") and its text.  The optional timestamp is unused by the engine. -/
structure ConversationMessage where
  role : String
  content : String
deriving Repr, DecidableEq

/-- `TimeSlot`: start/end datetimes (minutes since the epoch) plus the
availability flag. -/
structure TimeSlot where
  start_time : Int
  end_time : Int
  available : Bool
deriving Repr, DecidableEq

/-- The keys of the loosely-typed `state.current_booking_data` dict that
`agent_service.py` reads or writes; an absent key is `none`. -/
structure BookingData where
  service_type : Option String := none
  date : Option String := none
  time : Option String := none
  duration_minutes : Option Int := none
  user_email : Option String := none
  booking_id : Option String := none
  booking_timestamp : Option String := none
  confirmation_number : Option String := none
  user_name : Option String := none
  contact_phone : Option String := none
  location : Option String := none
  instructions : Option String := none
  cancellation_policy : Option String := none
deriving Repr, DecidableEq

/-- `ConversationState` of `models/schemas.py` (defaults as in the pydantic
model). -/
structure ConversationState where
  session_id : String
  stage : String := "greeting"
  messages : List ConversationMessage := []
  current_booking_data : BookingData := {}
  available_slots : List TimeSlot := []
deriving Repr, DecidableEq

/-- `AgentResponse` of `models/schemas.py`. -/
structure AgentResponse where
  message : String
  booking_data : Option BookingData := none
  suggested_slots : Option (List TimeSlot) := none
  requires_confirmation : Bool := false
deriving Repr, DecidableEq

/-- The partial entity dict produced by `_extract_entities_regex` /
`_extract_entities_async`.  The spec treats the extractor as an external
collaborator, so its output is an argument of each turn rather than being
recomputed from the message text. -/
structure Entities where
  intent : Option String := none
  service_type : Option String := none
  date : Option String := none
  time : Option String := none
  duration : Option String := none
deriving Repr, DecidableEq

namespace BookingAgent

/-- Python truthiness of an optional string (`if entities.get('date'):`):
`None` and the empty string are falsy. -/
def truthy : Option String → Bool
  | none => false
  | some s => !(s == "")

/-- Does `needle` occur starting exactly at the head of `hay`? -/
def substrAt : List Char → List Char → Bool
  | [], _ => true
  | _ :: _, [] => false
  | n :: ns, h :: hs => n == h && substrAt ns hs

/-- Python `needle in hay` (contiguous substring) on character lists. -/
def containsSub (hay needle : List Char) : Bool :=
  match hay with
  | [] => needle.isEmpty
  | _ :: hs => substrAt needle hay || containsSub hs needle

/-- Python `needle in hay` on strings. -/
def strContains (hay needle : String) : Bool :=
  containsSub hay.data needle.data

/-- Python `str.lower()` (ASCII model). -/
def pyLower (s : String) : String :=
  String.mk (s.data.map Char.toLower)

/-- Character class `\w` of the email regex, read as ASCII `[A-Za-z0-9_]`. -/
def isWordChar (c : Char) : Bool :=
  c.isAlphanum || c == '_'

/-- Character class `[\w.-]` of the email regex
`[\w\.-]+@[\w\.-]+\.\w+` in `_handle_collecting_email` (line 534). -/
def isEmailClassChar (c : Char) : Bool :=
  isWordChar c || c == '.' || c == '-'

/-- Backtracking split of the character run after `@`: the regex engine
shortens the greedy `[\w.-]+` until a literal `.` followed by at least one
`\w` is found, preferring the latest such dot; `\.\w+` then takes the maximal
word run after that dot.  Returns the part before the dot and that word run. -/
def dotSplit : List Char → Option (List Char × List Char)
  | [] => none
  | c :: rest =>
    match dotSplit rest with
    | some (a, b) => some (c :: a, b)
    | none =>
      if c == '.' then
        let w := rest.takeWhile isWordChar
        if w.isEmpty then none else some ([], w)
      else none

/-- One attempt of the email regex at the current position: a nonempty
`[\w.-]+` run, a literal `@`, then the backtracking tail.  The part before
the final dot must be nonempty. -/
def emailMatchAt (l : List Char) : Option (List Char) :=
  let run1 := l.takeWhile isEmailClassChar
  let rest1 := l.dropWhile isEmailClassChar
  if run1.isEmpty then none
  else
    match rest1 with
    | '@' :: rest2 =>
      let run2 := rest2.takeWhile isEmailClassChar
      match dotSplit run2 with
      | some (a, b) => if a.isEmpty then none else some (run1 ++ '@' :: (a ++ '.' :: b))
      | none => none
    | _ => none

/-- `re.search`: try each start position from the left, first match wins. -/
def emailSearch : List Char → Option (List Char)
  | [] => none
  | c :: rest =>
    match emailMatchAt (c :: rest) with
    | some m => some m
    | none => emailSearch rest

/-- The `re.search(r"[\w\.-]+@[\w\.-]+\.\w+", message)` of
`_handle_collecting_email` (lines 533-535), returning `group(0)`. -/
def findEmail (message : String) : Option String :=
  (emailSearch message.data).map (fun l => String.mk l)

/-- The hard-coded `mock_slots` of `_handle_slot_selection` (lines 495-511)
and `_handle_slot_selection_sync` (lines 679-695): 2024-06-29 (day 180 of the
epoch) 10:00-11:00, 14:00-15:00 and 16:00-17:00, all available. -/
def mock_slots : List TimeSlot :=
  [⟨180 * 1440 + 600, 180 * 1440 + 660, true⟩,
   ⟨180 * 1440 + 840, 180 * 1440 + 900, true⟩,
   ⟨180 * 1440 + 960, 180 * 1440 + 1020, true⟩]

/-- `_get_context_suggestions` (lines 414-425); only the state is consulted. -/
def get_context_suggestions (state : ConversationState) (_message : String)
    (_entities : Entities) : List String :=
  (if state.stage == "showing_slots" || state.stage == "confirming" then
    (match state.current_booking_data.service_type with
     | some st => ["Book another " ++ st]
     | none => []) ++
    (match state.current_booking_data.duration_minutes with
     | some d => ["Schedule a " ++ toString d ++ "-minute session"]
     | none => []) ++
    ["Confirm this time", "Show me other options", "Change the date"]
   else if state.stage == "greeting" then
    ["Book a meeting", "Show available slots"]
   else []).take 3

/-- The booking-intent keyword list checked in `_handle_greeting`
(line 430). -/
def greetingBookingKeywords : List String :=
  ["book", "schedule", "appointment", "meeting", "need", "want"]

/-- The default greeting reply of `_handle_greeting` (lines 456-469). -/
def greetingDefaultMessage : String :=
  "Hello! I'm your AI booking assistant. I can help you schedule appointments for various services including:\n\n• **Consultation** (30-60 minutes)\n• **Therapy Session** (60 minutes)\n• **Workshop** (90-120 minutes)\n• **Meeting** (30-60 minutes)\n• **Business Consultation** (45-90 minutes)\n• **Creative Session** (60-90 minutes)\n\nHow can I help you today?\nYou can simply tell me what you need, like:\n• 'I need a consultation tomorrow at 10 AM'\n• 'Book a therapy session for next Monday'\n• 'Schedule a workshop for next week'"

/-- `_handle_greeting` (lines 428-472); `_handle_greeting_sync`
(lines 611-655) is textually identical.  When the service-type entity is
truthy, `entities['service_type']` is its value (`getD ""` is unreachable
under the truthiness guard). -/
def handle_greeting (state : ConversationState) (message : String)
    (entities : Entities) (suggestions : List String) :
    ConversationState × AgentResponse :=
  if entities.intent == some "booking"
      || greetingBookingKeywords.any (fun k => strContains (pyLower message) k) then
    let state1 := { state with stage := "collecting_info" }
    if truthy entities.service_type then
      let st := entities.service_type.getD ""
      let bd := { state1.current_booking_data with service_type := some st }
      let state2 := { state1 with current_booking_data := bd }
      if truthy entities.date && truthy entities.time then
        let bd2 := { bd with date := entities.date, time := entities.time }
        let state3 := { state2 with stage := "showing_slots", current_booking_data := bd2 }
        (state3,
         { message := "Great! I can help you book a " ++ st ++ " for "
             ++ entities.date.getD "tomorrow" ++ " at " ++ entities.time.getD "10 AM"
             ++ ". Let me check available slots.",
           booking_data := some bd2 })
      else
        (state2,
         { message := "Perfect! I can help you book a " ++ st
             ++ ". When would you like to schedule it?",
           booking_data := some bd })
    else
      (state1,
       { message := "I'd be happy to help you book an appointment! What type of service would you like? (consultation, therapy, workshop, meeting, etc.)" })
  else
    (state,
     { message :=
        if suggestions.isEmpty then greetingDefaultMessage
        else greetingDefaultMessage ++ "\n\n**Quick Actions:**\n"
          ++ String.intercalate "\n" (suggestions.map (fun s => "• " ++ s)) })

/-- `_handle_info_collection` (lines 474-490); `_handle_info_collection_sync`
(lines 657-673) is textually identical.  `'service_type' in entities` is key
presence, i.e. `isSome`. -/
def handle_info_collection (state : ConversationState) (_message : String)
    (entities : Entities) (_suggestions : List String) :
    ConversationState × AgentResponse :=
  let state1 :=
    match entities.service_type with
    | some st =>
        { state with current_booking_data :=
            { state.current_booking_data with service_type := some st } }
    | none => state
  if state1.current_booking_data.service_type.isSome then
    ({ state1 with stage := "showing_slots" },
     { message := "Great! I can help you book a meeting. Let me check available slots for tomorrow at 10 AM.",
       booking_data := some state1.current_booking_data })
  else
    (state1,
     { message := "I'd be happy to help you book a meeting! What type of service would you like? (consultation, therapy, workshop, etc.)" })

/-- `_handle_slot_selection` (lines 492-527): prompt for the email first when
`user_email` is missing (slots still attached), otherwise move to confirming
with the slot list attached. -/
def handle_slot_selection (state : ConversationState) (_message : String)
    (_entities : Entities) (_suggestions : List String) :
    ConversationState × AgentResponse :=
  if !truthy state.current_booking_data.user_email then
    ({ state with stage := "collecting_email" },
     { message := "Before we confirm your booking, could you please provide your email address for confirmation?",
       suggested_slots := some mock_slots,
       booking_data := some state.current_booking_data })
  else
    ({ state with stage := "confirming" },
     { message := "Here are some available slots for tomorrow:\n1. 10:00 AM - 11:00 AM\n2. 2:00 PM - 3:00 PM\n3. 4:00 PM - 5:00 PM\n\nWhich slot would you prefer?",
       suggested_slots := some mock_slots,
       booking_data := some state.current_booking_data })

/-- `_handle_slot_selection_sync` (lines 675-702): unlike the async handler it
never checks `user_email` and always moves to confirming. -/
def handle_slot_selection_sync (state : ConversationState) (_message : String)
    (_entities : Entities) (_suggestions : List String) :
    ConversationState × AgentResponse :=
  ({ state with stage := "confirming" },
   { message := "Here are some available slots for tomorrow:\n1. 10:00 AM - 11:00 AM\n2. 2:00 PM - 3:00 PM\n3. 4:00 PM - 5:00 PM\n\nWhich slot would you prefer?",
     suggested_slots := some mock_slots,
     booking_data := some state.current_booking_data })

/-- `_handle_collecting_email` (lines 529-548): store the regex match and move
to confirming, or stay put with the invalid-email re-prompt. -/
def handle_collecting_email (state : ConversationState) (message : String)
    (_entities : Entities) (_suggestions : List String) :
    ConversationState × AgentResponse :=
  match findEmail message with
  | some email =>
    let bd := { state.current_booking_data with user_email := some email }
    ({ state with stage := "confirming", current_booking_data := bd },
     { message := "Thank you! I've saved your email as " ++ email
         ++ ". Let's confirm your booking.",
       booking_data := some bd })
  | none =>
    (state,
     { message := "That doesn't look like a valid email address. Please enter a valid email (e.g., user@example.com):",
       booking_data := some state.current_booking_data })

/-- Per-turn environment of `_handle_confirmation`: the wall-clock derived
identifiers (`booking_id`, `booking_timestamp`, `confirmation_number` from
`datetime.now()` and `hash`, lines 559-561) and whether the confirmation
email send succeeded (lines 582-590). -/
structure ConfirmEnv where
  bookingId : String
  bookingTimestamp : String
  confirmationNumber : String
  emailOk : Bool
deriving Repr, DecidableEq

/-- `_handle_confirmation` (lines 550-596); `_handle_confirmation_sync`
(lines 704-756) has the same state effect.  Note the enhanced
`booking_data` is a `copy()` of the draft (line 555): the identifiers and
display defaults go only into the reply, never back into
`state.current_booking_data`. -/
def handle_confirmation (env : ConfirmEnv) (state : ConversationState)
    (_message : String) (_entities : Entities) (_suggestions : List String) :
    ConversationState × AgentResponse :=
  let state1 := { state with stage := "completed" }
  let bd1 := { state1.current_booking_data with
                booking_id := some env.bookingId,
                booking_timestamp := some env.bookingTimestamp,
                confirmation_number := some env.confirmationNumber }
  let bd2 := { bd1 with date :=
    match bd1.date with
    | none => some "Tomorrow"
    | some d => if d == "Unknown" then some "Tomorrow" else some d }
  let bd3 := { bd2 with time :=
    match bd2.time with
    | none => some "10:00 AM"
    | some t => if t == "Unknown" then some "10:00 AM" else some t }
  let bd4 := { bd3 with duration_minutes :=
    match bd3.duration_minutes with
    | none => some 60
    | some d => some d }
  let bd5 := { bd4 with
                user_email := some "user@example.com",
                user_name := some "Valued Customer",
                contact_phone := some "+1 (555) 123-4567",
                location := some "Main Office - Conference Room A",
                instructions := some "Please arrive 5 minutes before your scheduled time. Bring any relevant documents.",
                cancellation_policy := some "Free cancellation up to 24 hours before the appointment." }
  let email_status :=
    if env.emailOk then "Confirmation email sent successfully!"
    else "Email service temporarily unavailable."
  (state1,
   { message := "✅ Perfect! I've confirmed your " ++ bd5.service_type.getD "meeting"
       ++ " for " ++ bd5.date.getD "tomorrow" ++ " at " ++ bd5.time.getD "10:00 AM"
       ++ ". " ++ email_status
       ++ "\n\n**Booking Details:**\n• Confirmation #: " ++ env.confirmationNumber
       ++ "\n• Location: " ++ bd5.location.getD ""
       ++ "\n• Duration: " ++ toString (bd5.duration_minutes.getD 60)
       ++ " minutes\n\nIs there anything else I can help you with?",
     booking_data := some bd5,
     requires_confirmation := false })

/-- `_handle_booking` (lines 598-605); sync version (758-765) identical. -/
def handle_booking (state : ConversationState) (_message : String)
    (_entities : Entities) (_suggestions : List String) :
    ConversationState × AgentResponse :=
  ({ state with stage := "completed" },
   { message := "Your booking has been successfully created! You'll receive a confirmation email shortly.",
     booking_data := some state.current_booking_data,
     requires_confirmation := false })

/-- `_handle_completion` (lines 607-608); sync version (767-768) identical. -/
def handle_completion (state : ConversationState) (_message : String)
    (_entities : Entities) (_suggestions : List String) :
    ConversationState × AgentResponse :=
  (state,
   { message := "Thank you! If you need to book another appointment or have any questions, just let me know. Have a great day! 😊" })

/-- `_apply_extracted_entities` (lines 803-807): only `service_type` is merged
into the draft (the rest of the merge logic is elided in the source). -/
def apply_extracted_entities (state : ConversationState) (entities : Entities) :
    ConversationState :=
  match entities.service_type with
  | some st =>
      { state with current_booking_data :=
          { state.current_booking_data with service_type := some st } }
  | none => state

/-- The async stage dispatch
`self.conversation_stages.get(state.stage, self._handle_greeting)`
(lines 186-194 and 296-298). -/
def dispatchStage (env : ConfirmEnv) (state : ConversationState) (message : String)
    (entities : Entities) (suggestions : List String) :
    ConversationState × AgentResponse :=
  if state.stage == "greeting" then handle_greeting state message entities suggestions
  else if state.stage == "collecting_info" then handle_info_collection state message entities suggestions
  else if state.stage == "showing_slots" then handle_slot_selection state message entities suggestions
  else if state.stage == "collecting_email" then handle_collecting_email state message entities suggestions
  else if state.stage == "confirming" then handle_confirmation env state message entities suggestions
  else if state.stage == "booking" then handle_booking state message entities suggestions
  else if state.stage == "completed" then handle_completion state message entities suggestions
  else handle_greeting state message entities suggestions

/-- The sync stage dispatch of `_process_message_sync` (lines 258-272): note
there is no `collecting_email` branch, that stage falls through to the
greeting handler. -/
def dispatchStageSync (env : ConfirmEnv) (state : ConversationState) (message : String)
    (entities : Entities) (suggestions : List String) :
    ConversationState × AgentResponse :=
  if state.stage == "greeting" then handle_greeting state message entities suggestions
  else if state.stage == "collecting_info" then handle_info_collection state message entities suggestions
  else if state.stage == "showing_slots" then handle_slot_selection_sync state message entities suggestions
  else if state.stage == "confirming" then handle_confirmation env state message entities suggestions
  else if state.stage == "booking" then handle_booking state message entities suggestions
  else if state.stage == "completed" then handle_completion state message entities suggestions
  else handle_greeting state message entities suggestions

/-- `process_message_async` (lines 278-300): append the user entry, merge the
extracted entities (extraction and its cache are the external extractor,
represented by the `entities` argument), run the stage handler, append the
assistant entry. -/
def process_message_async (env : ConfirmEnv) (entities : Entities)
    (state : ConversationState) (user_message : String) :
    ConversationState × AgentResponse :=
  let state1 := { state with messages := state.messages ++ [⟨"user", user_message⟩] }
  let state2 := apply_extracted_entities state1 entities
  let suggestions := get_context_suggestions state2 user_message entities
  let res := dispatchStage env state2 user_message entities suggestions
  ({ res.1 with messages := res.1.messages ++ [⟨"assistant", res.2.message⟩] }, res.2)

/-- `_process_message_sync` (lines 242-275), the synchronous fallback: same
shape as the async path but with the sync dispatch. -/
def process_message_sync (env : ConfirmEnv) (entities : Entities)
    (state : ConversationState) (user_message : String) :
    ConversationState × AgentResponse :=
  let state1 := { state with messages := state.messages ++ [⟨"user", user_message⟩] }
  let state2 := apply_extracted_entities state1 entities
  let suggestions := get_context_suggestions state2 user_message entities
  let res := dispatchStageSync env state2 user_message entities suggestions
  ({ res.1 with messages := res.1.messages ++ [⟨"assistant", res.2.message⟩] }, res.2)

/-- How one `process_message` call (lines 207-231) resolves.  The happy path
awaits `process_message_async`; on any exception the `except` clause falls
back to `_process_message_sync` on the state as the failed attempt left it.
The failure shapes are: the async machinery failed before the coroutine ran
(state untouched), or the coroutine raised after appending the user entry
(e.g. the `await self.async_cache.get(...)` of line 286 when the cache lock
is bound to a different event loop), leaving that entry behind. -/
inductive FailMode where
  | ok
  | syncFallbackFresh
  | syncFallbackAfterAppend
deriving Repr, DecidableEq

/-- `process_message` (lines 207-231) under the given failure mode. -/
def process_message (mode : FailMode) (env : ConfirmEnv) (entities : Entities)
    (state : ConversationState) (user_message : String) :
    ConversationState × AgentResponse :=
  match mode with
  | .ok => process_message_async env entities state user_message
  | .syncFallbackFresh => process_message_sync env entities state user_message
  | .syncFallbackAfterAppend =>
      process_message_sync env entities
        { state with messages := state.messages ++ [⟨"user", user_message⟩] }
        user_message

/-- `get_response` (lines 833-841): scan the history backwards for the most
recent assistant entry; `none` models a state whose `messages` attribute is
missing or not a list (the `hasattr`/`isinstance` guard). -/
def findAssistantRev : List ConversationMessage → Option String
  | [] => none
  | m :: rest => if m.role == "assistant" then some m.content else findAssistantRev rest

/-- `BookingAgent.get_response` (lines 833-841). -/
def get_response (messages : Option (List ConversationMessage)) : String :=
  match messages with
  | some msgs =>
    match findAssistantRev msgs.reverse with
    | some c => c
    | none => "No response available."
  | none => "No response available."

/-- Spec-side description for C9: the content of the most recent entry whose
role is "assistant". -/
def lastAssistantContent (msgs : List ConversationMessage) : Option String :=
  ((msgs.filter (fun m => m.role == "assistant")).getLast?).map (fun m => m.content)

end BookingAgent

namespace BookingAgent

/-- All handlers leave the history untouched: `handle_greeting`. -/
theorem handle_greeting_messages (s : ConversationState) (m : String)
    (e : Entities) (sug : List String) :
    ((handle_greeting s m e sug).1).messages = s.messages := by
  unfold handle_greeting
  split_ifs <;> rfl

/-- All handlers leave the history untouched: `handle_info_collection`. -/
theorem handle_info_collection_messages (s : ConversationState) (m : String)
    (e : Entities) (sug : List String) :
    ((handle_info_collection s m e sug).1).messages = s.messages := by
  unfold handle_info_collection
  cases e.service_type <;> dsimp only <;> split_ifs <;> rfl

/-- All handlers leave the history untouched: `handle_slot_selection`. -/
theorem handle_slot_selection_messages (s : ConversationState) (m : String)
    (e : Entities) (sug : List String) :
    ((handle_slot_selection s m e sug).1).messages = s.messages := by
  unfold handle_slot_selection
  split_ifs <;> rfl

/-- All handlers leave the history untouched: `handle_collecting_email`. -/
theorem handle_collecting_email_messages (s : ConversationState) (m : String)
    (e : Entities) (sug : List String) :
    ((handle_collecting_email s m e sug).1).messages = s.messages := by
  unfold handle_collecting_email
  cases findEmail m <;> rfl

/-- All handlers leave the history untouched: the remaining handlers. -/
theorem handle_rest_messages (env : ConfirmEnv) (s : ConversationState) (m : String)
    (e : Entities) (sug : List String) :
    ((handle_slot_selection_sync s m e sug).1).messages = s.messages ∧
    ((handle_confirmation env s m e sug).1).messages = s.messages ∧
    ((handle_booking s m e sug).1).messages = s.messages ∧
    ((handle_completion s m e sug).1).messages = s.messages :=
  ⟨rfl, rfl, rfl, rfl⟩

/-- The async dispatch leaves the history untouched. -/
theorem dispatchStage_messages (env : ConfirmEnv) (s : ConversationState)
    (m : String) (e : Entities) (sug : List String) :
    ((dispatchStage env s m e sug).1).messages = s.messages := by
  unfold dispatchStage
  split_ifs <;>
    simp [handle_greeting_messages, handle_info_collection_messages,
      handle_slot_selection_messages, handle_collecting_email_messages,
      (handle_rest_messages env s m e sug).1, (handle_rest_messages env s m e sug).2.1,
      (handle_rest_messages env s m e sug).2.2.1, (handle_rest_messages env s m e sug).2.2.2]

/-- The sync dispatch leaves the history untouched. -/
theorem dispatchStageSync_messages (env : ConfirmEnv) (s : ConversationState)
    (m : String) (e : Entities) (sug : List String) :
    ((dispatchStageSync env s m e sug).1).messages = s.messages := by
  unfold dispatchStageSync
  split_ifs <;>
    simp [handle_greeting_messages, handle_info_collection_messages,
      handle_slot_selection_messages,
      (handle_rest_messages env s m e sug).1, (handle_rest_messages env s m e sug).2.1,
      (handle_rest_messages env s m e sug).2.2.1, (handle_rest_messages env s m e sug).2.2.2]

/-- The entity merge leaves the history untouched. -/
theorem apply_extracted_entities_messages (s : ConversationState) (e : Entities) :
    (apply_extracted_entities s e).messages = s.messages := by
  unfold apply_extracted_entities
  cases e.service_type <;> rfl

/-- One happy-path async turn appends exactly one user and one assistant
entry, in that order, and changes none of the earlier entries. -/
theorem process_message_async_messages (env : ConfirmEnv) (e : Entities)
    (s : ConversationState) (m : String) :
    ∃ r, (process_message_async env e s m).1.messages
      = s.messages ++ [⟨"user", m⟩, ⟨"assistant", r⟩] := by
  refine ⟨(process_message_async env e s m).2.message, ?_⟩
  unfold process_message_async
  dsimp only
  rw [dispatchStage_messages, apply_extracted_entities_messages]
  simp

/-- One sync turn appends exactly one user and one assistant entry. -/
theorem process_message_sync_messages (env : ConfirmEnv) (e : Entities)
    (s : ConversationState) (m : String) :
    ∃ r, (process_message_sync env e s m).1.messages
      = s.messages ++ [⟨"user", m⟩, ⟨"assistant", r⟩] := by
  refine ⟨(process_message_sync env e s m).2.message, ?_⟩
  unfold process_message_sync
  dsimp only
  rw [dispatchStageSync_messages, apply_extracted_entities_messages]
  simp

end BookingAgent

namespace BookingAgent

/-- One inbound turn: the message text, the extractor output for it, and how
the `process_message` try/except resolves for it. -/
structure TurnInput where
  entities : Entities
  text : String
  mode : FailMode
deriving Repr, DecidableEq

/-- Run a sequence of turns through `process_message`, threading the state. -/
def runTurns (env : ConfirmEnv) (state : ConversationState) :
    List TurnInput → ConversationState
  | [] => state
  | t :: ts => runTurns env (process_message t.mode env t.entities state t.text).1 ts

/-- The history alternates user(1), assistant(1), ..., user(N), assistant(N). -/
def alternatesUA : List ConversationMessage → Bool
  | [] => true
  | u :: a :: rest => u.role == "user" && a.role == "assistant" && alternatesUA rest
  | _ => false

/-- Any turn whose mode avoids the failing-after-append fallback appends
exactly one user and one assistant entry. -/
theorem process_message_turn_messages (mode : FailMode) (env : ConfirmEnv)
    (e : Entities) (s : ConversationState) (m : String)
    (h : mode ≠ FailMode.syncFallbackAfterAppend) :
    ∃ r, (process_message mode env e s m).1.messages
      = s.messages ++ [⟨"user", m⟩, ⟨"assistant", r⟩] := by
  cases mode with
  | ok => exact process_message_async_messages env e s m
  | syncFallbackFresh => exact process_message_sync_messages env e s m
  | syncFallbackAfterAppend => exact absurd rfl h

/-- Any turn, in any mode, only appends to the history. -/
theorem process_message_appends (mode : FailMode) (env : ConfirmEnv)
    (e : Entities) (s : ConversationState) (m : String) :
    ∃ tail, (process_message mode env e s m).1.messages = s.messages ++ tail := by
  cases mode with
  | ok =>
    obtain ⟨r, hr⟩ := process_message_async_messages env e s m
    exact ⟨_, hr⟩
  | syncFallbackFresh =>
    obtain ⟨r, hr⟩ := process_message_sync_messages env e s m
    exact ⟨_, hr⟩
  | syncFallbackAfterAppend =>
    obtain ⟨r, hr⟩ := process_message_sync_messages env e
      { s with messages := s.messages ++ [⟨"user", m⟩] } m
    refine ⟨[⟨"user", m⟩, ⟨"user", m⟩, ⟨"assistant", r⟩], ?_⟩
    rw [process_message, hr]
    simp

/-- Core induction for C8: over turns that avoid the failing-after-append
fallback, the history grows by an alternating user/assistant pair per turn. -/
theorem runTurns_history (env : ConfirmEnv) :
    ∀ (ts : List TurnInput) (s : ConversationState),
      (∀ t ∈ ts, t.mode ≠ FailMode.syncFallbackAfterAppend) →
      ∃ tail, (runTurns env s ts).messages = s.messages ++ tail ∧
        tail.length = 2 * ts.length ∧ alternatesUA tail = true := by
  intro ts
  induction ts with
  | nil => intro s _; exact ⟨[], by simp [runTurns], by simp, rfl⟩
  | cons t ts ih =>
    intro s hmode
    obtain ⟨r, hr⟩ := process_message_turn_messages t.mode env t.entities s t.text
      (hmode t (List.mem_cons_self t ts))
    obtain ⟨tail, htail, hlen, halt⟩ :=
      ih (process_message t.mode env t.entities s t.text).1
        (fun u hu => hmode u (List.mem_cons_of_mem t hu))
    refine ⟨[⟨"user", t.text⟩, ⟨"assistant", r⟩] ++ tail, ?_, ?_, ?_⟩
    · rw [runTurns, htail, hr]
      simp
    · simp [hlen]
      ring
    · simpa [alternatesUA] using halt

end BookingAgent

/-- C8 (amended): over any turn sequence in which the async processing either
succeeds or fails before the coroutine starts, the history after turn N has
exactly 2N entries alternating user, assistant, ..., and any further turn (in
any mode, including the failing-after-append fallback) only appends — earlier
entries are never modified or removed.  The original claim fails only on the
fallback where the async path dies after appending the user entry, which
appends that entry twice (see the counterexample). -/
theorem C8_history_append_only (env : BookingAgent.ConfirmEnv)
    (ts : List BookingAgent.TurnInput) (s0 : ConversationState)
    (hmode : ∀ t ∈ ts, t.mode ≠ BookingAgent.FailMode.syncFallbackAfterAppend)
    (hinit : s0.messages = []) :
    (BookingAgent.runTurns env s0 ts).messages.length = 2 * ts.length ∧
    BookingAgent.alternatesUA (BookingAgent.runTurns env s0 ts).messages = true ∧
    (∀ t : BookingAgent.TurnInput, ∃ tail,
      (BookingAgent.process_message t.mode env t.entities
          (BookingAgent.runTurns env s0 ts) t.text).1.messages
        = (BookingAgent.runTurns env s0 ts).messages ++ tail) := by
  obtain ⟨tail, htail, hlen, halt⟩ := BookingAgent.runTurns_history env ts s0 hmode
  refine ⟨?_, ?_, ?_⟩
  · rw [htail, hinit]
    simpa using hlen
  · rw [htail, hinit]
    simpa using halt
  · intro t
    exact BookingAgent.process_message_appends t.mode env t.entities
      (BookingAgent.runTurns env s0 ts) t.text

/-- Witness for C8 (amended): one happy-path turn "hi" from a fresh session. -/
theorem C8_history_append_only_witness :
    ((BookingAgent.runTurns ⟨"B", "T", "C", true⟩ { session_id := "s" }
        [⟨{}, "hi", .ok⟩]).messages.length = 2 * 1 ∧
      BookingAgent.alternatesUA
        (BookingAgent.runTurns ⟨"B", "T", "C", true⟩ { session_id := "s" }
          [⟨{}, "hi", .ok⟩]).messages = true ∧
      (∀ t : BookingAgent.TurnInput, ∃ tail,
        (BookingAgent.process_message t.mode ⟨"B", "T", "C", true⟩ t.entities
            (BookingAgent.runTurns ⟨"B", "T", "C", true⟩ { session_id := "s" }
              [⟨{}, "hi", .ok⟩]) t.text).1.messages
          = (BookingAgent.runTurns ⟨"B", "T", "C", true⟩ { session_id := "s" }
              [⟨{}, "hi", .ok⟩]).messages ++ tail)) :=
  C8_history_append_only ⟨"B", "T", "C", true⟩ [⟨{}, "hi", .ok⟩]
    { session_id := "s" } (by decide) rfl

/-- C8 counterexample: when the async processing fails after appending the
user entry (the error path named by the claim), the synchronous fallback
appends the user entry again: one turn from a fresh session yields three
history entries with roles user, user, assistant — not 2×N alternating
entries. -/
theorem C8_counterexample :
    ((BookingAgent.process_message .syncFallbackAfterAppend ⟨"B", "T", "C", true⟩ {}
        { session_id := "s" } "hi").1.messages.map (fun m => m.role)
      = ["user", "user", "assistant"]) ∧
    (BookingAgent.process_message .syncFallbackAfterAppend ⟨"B", "T", "C", true⟩ {}
        { session_id := "s" } "hi").1.messages.length = 3 ∧
    (3 : Nat) ≠ 2 * 1 := by
  refine ⟨by decide, by decide, by decide⟩

namespace BookingAgent

/-- The entity merge only ever touches `service_type`: stage and the other
draft fields are preserved. -/
theorem apply_extracted_entities_fields (s : ConversationState) (e : Entities) :
    (apply_extracted_entities s e).stage = s.stage ∧
    (apply_extracted_entities s e).current_booking_data.user_email
      = s.current_booking_data.user_email ∧
    (apply_extracted_entities s e).current_booking_data.date
      = s.current_booking_data.date ∧
    (apply_extracted_entities s e).current_booking_data.time
      = s.current_booking_data.time ∧
    (apply_extracted_entities s e).current_booking_data.duration_minutes
      = s.current_booking_data.duration_minutes ∧
    (apply_extracted_entities s e).current_booking_data.confirmation_number
      = s.current_booking_data.confirmation_number ∧
    (apply_extracted_entities s e).current_booking_data.booking_id
      = s.current_booking_data.booking_id := by
  cases he : e.service_type <;> simp [apply_extracted_entities, he]

/-- With no extracted `service_type` the merge is the identity. -/
theorem apply_extracted_entities_none (s : ConversationState) (e : Entities)
    (h : e.service_type = none) : apply_extracted_entities s e = s := by
  simp [apply_extracted_entities, h]

/-- In stage `showing_slots` the async dispatch picks `_handle_slot_selection`. -/
theorem dispatchStage_at_showing_slots (env : ConfirmEnv) (s : ConversationState)
    (m : String) (e : Entities) (sug : List String) (h : s.stage = "showing_slots") :
    dispatchStage env s m e sug = handle_slot_selection s m e sug := by
  unfold dispatchStage
  rw [h]
  rfl

/-- In stage `showing_slots` the sync dispatch picks `_handle_slot_selection_sync`. -/
theorem dispatchStageSync_at_showing_slots (env : ConfirmEnv) (s : ConversationState)
    (m : String) (e : Entities) (sug : List String) (h : s.stage = "showing_slots") :
    dispatchStageSync env s m e sug = handle_slot_selection_sync s m e sug := by
  unfold dispatchStageSync
  rw [h]
  rfl

/-- In stage `completed` the async dispatch picks `_handle_completion`. -/
theorem dispatchStage_at_completed (env : ConfirmEnv) (s : ConversationState)
    (m : String) (e : Entities) (sug : List String) (h : s.stage = "completed") :
    dispatchStage env s m e sug = handle_completion s m e sug := by
  unfold dispatchStage
  rw [h]
  rfl

/-- In stage `completed` the sync dispatch picks `_handle_completion`. -/
theorem dispatchStageSync_at_completed (env : ConfirmEnv) (s : ConversationState)
    (m : String) (e : Entities) (sug : List String) (h : s.stage = "completed") :
    dispatchStageSync env s m e sug = handle_completion s m e sug := by
  unfold dispatchStageSync
  rw [h]
  rfl

/-- Definitional reduction of the async processing path to its dispatch. -/
theorem process_message_async_reduce (env : ConfirmEnv) (e : Entities)
    (s : ConversationState) (m : String) :
    (process_message_async env e s m).1.stage
        = (dispatchStage env
            (apply_extracted_entities { s with messages := s.messages ++ [⟨"user", m⟩] } e)
            m e (get_context_suggestions
              (apply_extracted_entities { s with messages := s.messages ++ [⟨"user", m⟩] } e)
              m e)).1.stage ∧
    (process_message_async env e s m).1.current_booking_data
        = (dispatchStage env
            (apply_extracted_entities { s with messages := s.messages ++ [⟨"user", m⟩] } e)
            m e (get_context_suggestions
              (apply_extracted_entities { s with messages := s.messages ++ [⟨"user", m⟩] } e)
              m e)).1.current_booking_data ∧
    (process_message_async env e s m).2
        = (dispatchStage env
            (apply_extracted_entities { s with messages := s.messages ++ [⟨"user", m⟩] } e)
            m e (get_context_suggestions
              (apply_extracted_entities { s with messages := s.messages ++ [⟨"user", m⟩] } e)
              m e)).2 :=
  ⟨rfl, rfl, rfl⟩

/-- Definitional reduction of the sync processing path to its dispatch. -/
theorem process_message_sync_reduce (env : ConfirmEnv) (e : Entities)
    (s : ConversationState) (m : String) :
    (process_message_sync env e s m).1.stage
        = (dispatchStageSync env
            (apply_extracted_entities { s with messages := s.messages ++ [⟨"user", m⟩] } e)
            m e (get_context_suggestions
              (apply_extracted_entities { s with messages := s.messages ++ [⟨"user", m⟩] } e)
              m e)).1.stage ∧
    (process_message_sync env e s m).1.current_booking_data
        = (dispatchStageSync env
            (apply_extracted_entities { s with messages := s.messages ++ [⟨"user", m⟩] } e)
            m e (get_context_suggestions
              (apply_extracted_entities { s with messages := s.messages ++ [⟨"user", m⟩] } e)
              m e)).1.current_booking_data ∧
    (process_message_sync env e s m).2
        = (dispatchStageSync env
            (apply_extracted_entities { s with messages := s.messages ++ [⟨"user", m⟩] } e)
            m e (get_context_suggestions
              (apply_extracted_entities { s with messages := s.messages ++ [⟨"user", m⟩] } e)
              m e)).2 :=
  ⟨rfl, rfl, rfl⟩

end BookingAgent

/-- C3 counterexample: in stage `showing_slots` with no contact email stored,
the synchronous fallback path of `process_message` moves the session straight
to `confirming` instead of `collecting_email`, so the claim fails for that
processing path. -/
theorem C3_counterexample :
    ({ session_id := "s", stage := "showing_slots" } :
        ConversationState).current_booking_data.user_email = none ∧
    (BookingAgent.process_message_sync ⟨"B", "T", "C", true⟩ {}
        { session_id := "s", stage := "showing_slots" } "the first one").1.stage
      = "confirming" ∧
    ("confirming" : String) ≠ "collecting_email" :=
  ⟨rfl, rfl, by decide⟩

/-- C3 (amended): on the async processing path the claim holds: in
`showing_slots` with the contact email missing the session moves to
`collecting_email` and the reply still carries the slot list; with the email
present it moves to `confirming` with the slot list attached.  The
synchronous fallback instead always moves to `confirming`, slot list
attached, without checking the email. -/
theorem C3_showing_slots (env : BookingAgent.ConfirmEnv) (entities : Entities)
    (state : ConversationState) (msg : String)
    (hstage : state.stage = "showing_slots") :
    (BookingAgent.truthy state.current_booking_data.user_email = false →
      (BookingAgent.process_message_async env entities state msg).1.stage
          = "collecting_email" ∧
      (BookingAgent.process_message_async env entities state msg).2.suggested_slots
          = some BookingAgent.mock_slots) ∧
    (BookingAgent.truthy state.current_booking_data.user_email = true →
      (BookingAgent.process_message_async env entities state msg).1.stage
          = "confirming" ∧
      (BookingAgent.process_message_async env entities state msg).2.suggested_slots
          = some BookingAgent.mock_slots) ∧
    ((BookingAgent.process_message_sync env entities state msg).1.stage
          = "confirming" ∧
      (BookingAgent.process_message_sync env entities state msg).2.suggested_slots
          = some BookingAgent.mock_slots) := by
  have hs2 : (BookingAgent.apply_extracted_entities
      { state with messages := state.messages ++ [⟨"user", msg⟩] } entities).stage
        = "showing_slots" := by
    rw [(BookingAgent.apply_extracted_entities_fields _ _).1]
    exact hstage
  have hm2 := (BookingAgent.apply_extracted_entities_fields
    { state with messages := state.messages ++ [⟨"user", msg⟩] } entities).2.1
  obtain ⟨ha1, ha2, ha3⟩ := BookingAgent.process_message_async_reduce env entities state msg
  obtain ⟨hb1, hb2, hb3⟩ := BookingAgent.process_message_sync_reduce env entities state msg
  rw [ha1, ha3, hb1, hb3,
    BookingAgent.dispatchStage_at_showing_slots _ _ _ _ _ hs2,
    BookingAgent.dispatchStageSync_at_showing_slots _ _ _ _ _ hs2]
  refine ⟨?_, ?_, ?_⟩
  · intro hemail
    unfold BookingAgent.handle_slot_selection
    rw [hm2, hemail]
    exact ⟨rfl, rfl⟩
  · intro hemail
    unfold BookingAgent.handle_slot_selection
    rw [hm2, hemail]
    exact ⟨rfl, rfl⟩
  · exact ⟨rfl, rfl⟩

/-- Witness for C3 (amended): a `showing_slots` state without a stored email
(async path goes to `collecting_email`) and one with a stored email (async
path goes to `confirming`). -/
theorem C3_showing_slots_witness :
    ((BookingAgent.process_message_async ⟨"B", "T", "C", true⟩ {}
        { session_id := "s", stage := "showing_slots" } "pick one").1.stage
          = "collecting_email" ∧
      (BookingAgent.process_message_async ⟨"B", "T", "C", true⟩ {}
        { session_id := "s", stage := "showing_slots" } "pick one").2.suggested_slots
          = some BookingAgent.mock_slots) ∧
    ((BookingAgent.process_message_async ⟨"B", "T", "C", true⟩ {}
        { session_id := "s", stage := "showing_slots",
          current_booking_data := { user_email := some "user@example.com" } }
        "pick one").1.stage = "confirming" ∧
      (BookingAgent.process_message_sync ⟨"B", "T", "C", true⟩ {}
        { session_id := "s", stage := "showing_slots" } "pick one").1.stage
          = "confirming") :=
  ⟨(C3_showing_slots ⟨"B", "T", "C", true⟩ {}
      { session_id := "s", stage := "showing_slots" } "pick one" rfl).1 (by decide),
   (C3_showing_slots ⟨"B", "T", "C", true⟩ {}
      { session_id := "s", stage := "showing_slots",
        current_booking_data := { user_email := some "user@example.com" } }
      "pick one" rfl).2.1 (by decide) |>.1,
   (C3_showing_slots ⟨"B", "T", "C", true⟩ {}
      { session_id := "s", stage := "showing_slots" } "pick one" rfl).2.2.1⟩

/-- C4 counterexample: with the booking already confirmed (stage `completed`),
a further message whose extracted entities carry a service type (here "book a
workshop") overwrites the draft's `service_type` through
`_apply_extracted_entities` — the draft is not immutable after confirmation. -/
theorem C4_counterexample :
    (BookingAgent.process_message_async ⟨"B", "T", "C", true⟩
        { intent := some "booking", service_type := some "workshop" }
        { session_id := "s", stage := "completed",
          current_booking_data := { service_type := some "meeting", date := some "Tomorrow", time := some "10:00 AM" } }
        "book a workshop").1.current_booking_data.service_type = some "workshop" ∧
    some "workshop" ≠ some "meeting" :=
  ⟨rfl, by decide⟩

/-- C4 (amended): after the confirming turn the stage is `completed` and every
further `process_message` call (any resolution mode) keeps it `completed` and
leaves the draft's date, time, duration, confirmation number, booking id and
contact email unchanged; when the extractor reports no service type the whole
draft is unchanged.  Only `service_type` can still be overwritten, by the
pre-handler entity merge.  (The confirming turn itself writes the
confirmation identifiers only into the reply's copy of the draft, never into
the session draft.) -/
theorem C4_draft_after_confirmation (mode : BookingAgent.FailMode)
    (env : BookingAgent.ConfirmEnv) (entities : Entities)
    (state : ConversationState) (msg : String)
    (hstage : state.stage = "completed") :
    (BookingAgent.process_message mode env entities state msg).1.stage = "completed" ∧
    (BookingAgent.process_message mode env entities state msg).1.current_booking_data.date
      = state.current_booking_data.date ∧
    (BookingAgent.process_message mode env entities state msg).1.current_booking_data.time
      = state.current_booking_data.time ∧
    (BookingAgent.process_message mode env entities state
        msg).1.current_booking_data.duration_minutes
      = state.current_booking_data.duration_minutes ∧
    (BookingAgent.process_message mode env entities state
        msg).1.current_booking_data.confirmation_number
      = state.current_booking_data.confirmation_number ∧
    (BookingAgent.process_message mode env entities state
        msg).1.current_booking_data.booking_id
      = state.current_booking_data.booking_id ∧
    (BookingAgent.process_message mode env entities state
        msg).1.current_booking_data.user_email
      = state.current_booking_data.user_email ∧
    (entities.service_type = none →
      (BookingAgent.process_message mode env entities state msg).1.current_booking_data
        = state.current_booking_data) := by
  cases mode with
  | ok =>
    obtain ⟨ha1, ha2, _⟩ := BookingAgent.process_message_async_reduce env entities state msg
    have hs2 : (BookingAgent.apply_extracted_entities
        { state with messages := state.messages ++ [⟨"user", msg⟩] } entities).stage
          = "completed" := by
      rw [(BookingAgent.apply_extracted_entities_fields _ _).1]
      exact hstage
    have hf := BookingAgent.apply_extracted_entities_fields
      { state with messages := state.messages ++ [⟨"user", msg⟩] } entities
    rw [show BookingAgent.process_message .ok env entities state msg
          = BookingAgent.process_message_async env entities state msg from rfl,
      ha1, ha2, BookingAgent.dispatchStage_at_completed _ _ _ _ _ hs2]
    refine ⟨hs2, hf.2.2.1, hf.2.2.2.1, hf.2.2.2.2.1, hf.2.2.2.2.2.1,
      hf.2.2.2.2.2.2, hf.2.1, ?_⟩
    intro hnone
    rw [BookingAgent.apply_extracted_entities_none _ _ hnone]
    rfl
  | syncFallbackFresh =>
    obtain ⟨ha1, ha2, _⟩ := BookingAgent.process_message_sync_reduce env entities state msg
    have hs2 : (BookingAgent.apply_extracted_entities
        { state with messages := state.messages ++ [⟨"user", msg⟩] } entities).stage
          = "completed" := by
      rw [(BookingAgent.apply_extracted_entities_fields _ _).1]
      exact hstage
    have hf := BookingAgent.apply_extracted_entities_fields
      { state with messages := state.messages ++ [⟨"user", msg⟩] } entities
    rw [show BookingAgent.process_message .syncFallbackFresh env entities state msg
          = BookingAgent.process_message_sync env entities state msg from rfl,
      ha1, ha2, BookingAgent.dispatchStageSync_at_completed _ _ _ _ _ hs2]
    refine ⟨hs2, hf.2.2.1, hf.2.2.2.1, hf.2.2.2.2.1, hf.2.2.2.2.2.1,
      hf.2.2.2.2.2.2, hf.2.1, ?_⟩
    intro hnone
    rw [BookingAgent.apply_extracted_entities_none _ _ hnone]
    rfl
  | syncFallbackAfterAppend =>
    obtain ⟨ha1, ha2, _⟩ := BookingAgent.process_message_sync_reduce env entities
      { state with messages := state.messages ++ [⟨"user", msg⟩] } msg
    have hs2 : (BookingAgent.apply_extracted_entities
        { state with messages := (state.messages ++ [⟨"user", msg⟩]) ++ [⟨"user", msg⟩] }
        entities).stage = "completed" := by
      rw [(BookingAgent.apply_extracted_entities_fields _ _).1]
      exact hstage
    have hf := BookingAgent.apply_extracted_entities_fields
      { state with messages := (state.messages ++ [⟨"user", msg⟩]) ++ [⟨"user", msg⟩] }
      entities
    rw [show BookingAgent.process_message .syncFallbackAfterAppend env entities state msg
          = BookingAgent.process_message_sync env entities
              { state with messages := state.messages ++ [⟨"user", msg⟩] } msg from rfl,
      ha1, ha2, BookingAgent.dispatchStageSync_at_completed _ _ _ _ _ hs2]
    refine ⟨hs2, hf.2.2.1, hf.2.2.2.1, hf.2.2.2.2.1, hf.2.2.2.2.2.1,
      hf.2.2.2.2.2.2, hf.2.1, ?_⟩
    intro hnone
    rw [BookingAgent.apply_extracted_entities_none _ _ hnone]
    rfl

/-- Witness for C4 (amended): a completed session, a turn with no extracted
service type leaves the whole draft unchanged. -/
theorem C4_draft_after_confirmation_witness :
    (BookingAgent.process_message .ok ⟨"B", "T", "C", true⟩ {}
        { session_id := "s", stage := "completed",
          current_booking_data := { service_type := some "meeting", date := some "Tomorrow", time := some "10:00 AM" } }
        "thanks").1.stage = "completed" ∧
    (BookingAgent.process_message .ok ⟨"B", "T", "C", true⟩ {}
        { session_id := "s", stage := "completed",
          current_booking_data := { service_type := some "meeting", date := some "Tomorrow", time := some "10:00 AM" } }
        "thanks").1.current_booking_data
      = { service_type := some "meeting", date := some "Tomorrow", time := some "10:00 AM" } :=
  ⟨(C4_draft_after_confirmation .ok ⟨"B", "T", "C", true⟩ {}
      { session_id := "s", stage := "completed",
        current_booking_data := { service_type := some "meeting", date := some "Tomorrow", time := some "10:00 AM" } } "thanks" rfl).1,
   (C4_draft_after_confirmation .ok ⟨"B", "T", "C", true⟩ {}
      { session_id := "s", stage := "completed",
        current_booking_data := { service_type := some "meeting", date := some "Tomorrow", time := some "10:00 AM" } } "thanks" rfl).2.2.2.2.2.2.2
     rfl⟩

/-- C7: in stage `collecting_email`, a message from which the email regex
parses an address stores exactly that address in the draft and moves to
`confirming`; a message with no parseable address leaves the state (stage and
draft) unchanged and replies with the specific invalid-email re-prompt. -/
theorem C7_collecting_email (state : ConversationState) (msg : String)
    (entities : Entities) (suggestions : List String)
    (hstage : state.stage = "collecting_email") :
    (∀ email, BookingAgent.findEmail msg = some email →
      (BookingAgent.handle_collecting_email state msg entities suggestions).1.stage
          = "confirming" ∧
      (BookingAgent.handle_collecting_email state msg entities
          suggestions).1.current_booking_data
        = { state.current_booking_data with user_email := some email }) ∧
    (BookingAgent.findEmail msg = none →
      (BookingAgent.handle_collecting_email state msg entities suggestions).1 = state ∧
      (BookingAgent.handle_collecting_email state msg entities suggestions).1.stage
          = "collecting_email" ∧
      (BookingAgent.handle_collecting_email state msg entities suggestions).2.message
        = "That doesn't look like a valid email address. Please enter a valid email (e.g., user@example.com):") := by
  constructor
  · intro email he
    unfold BookingAgent.handle_collecting_email
    rw [he]
    exact ⟨rfl, rfl⟩
  · intro he
    unfold BookingAgent.handle_collecting_email
    rw [he]
    exact ⟨rfl, hstage, rfl⟩

/-- Witness for C7: "not an email" keeps the stage and draft and re-prompts;
"user@example.com" is stored verbatim and the stage becomes `confirming`. -/
theorem C7_collecting_email_witness :
    ((BookingAgent.handle_collecting_email
        { session_id := "s", stage := "collecting_email" } "not an email" {} []).1
      = { session_id := "s", stage := "collecting_email" } ∧
      (BookingAgent.handle_collecting_email
        { session_id := "s", stage := "collecting_email" } "not an email" {} []).1.stage
      = "collecting_email" ∧
      (BookingAgent.handle_collecting_email
        { session_id := "s", stage := "collecting_email" } "not an email" {} []).2.message
      = "That doesn't look like a valid email address. Please enter a valid email (e.g., user@example.com):") ∧
    ((BookingAgent.handle_collecting_email
        { session_id := "s", stage := "collecting_email" } "user@example.com" {} []).1.stage
      = "confirming" ∧
      (BookingAgent.handle_collecting_email
        { session_id := "s", stage := "collecting_email" }
        "user@example.com" {} []).1.current_booking_data
      = { user_email := some "user@example.com" }) :=
  ⟨(C7_collecting_email { session_id := "s", stage := "collecting_email" }
      "not an email" {} [] rfl).2 (by decide),
   (C7_collecting_email { session_id := "s", stage := "collecting_email" }
      "user@example.com" {} [] rfl).1 "user@example.com" (by decide)⟩

/-- C9: `get_response` returns the content of the most recent history entry
whose role is "assistant" (formalized as the last element of the
assistant-filtered history), and the fixed fallback string when there is no
assistant entry or no message list; it is a total function. -/
theorem C9_get_response_last_assistant :
    (∀ msgs : List ConversationMessage,
      BookingAgent.get_response (some msgs)
        = (BookingAgent.lastAssistantContent msgs).getD "No response available.") ∧
    BookingAgent.get_response none = "No response available." := by
  constructor
  · intro msgs
    have hscan : ∀ l : List ConversationMessage,
        BookingAgent.findAssistantRev l
          = ((l.filter (fun m => m.role == "assistant")).head?).map
              (fun m => m.content) := by
      intro l
      induction l with
      | nil => rfl
      | cons m rest ih =>
        rw [BookingAgent.findAssistantRev]
        cases hm : (m.role == "assistant") with
        | true => simp [List.filter_cons, hm]
        | false => simp [List.filter_cons, hm, ih]
    rw [show BookingAgent.get_response (some msgs)
          = (match BookingAgent.findAssistantRev msgs.reverse with
             | some c => c
             | none => "No response available.") from rfl]
    unfold BookingAgent.lastAssistantContent
    rw [hscan, List.filter_reverse, List.head?_reverse]
    cases (msgs.filter (fun m => m.role == "assistant")).getLast? <;> rfl
  · rfl

/-! Embedding of `parse_time` from `backend/app/agents/tools.py` (lines 6-54). -/

namespace Tools

/-- Python regex `\s` / `str.strip()` whitespace (ASCII model). -/
def isPySpace (c : Char) : Bool := c.isWhitespace

/-- Python `str.strip()`. -/
def pyStrip (l : List Char) : List Char :=
  ((l.dropWhile isPySpace).reverse.dropWhile isPySpace).reverse

/-- Value of an ASCII digit. -/
def digVal (c : Char) : Nat := c.toNat - 48

/-- Python `int(...)` on a short digit run. -/
def digitsToNat (ds : List Char) : Nat := ds.foldl (fun a c => a * 10 + digVal c) 0

/-- Try to read the alternation `(am|pm)` at the head. -/
def ampmAt : List Char → Option (String × List Char)
  | 'a' :: 'm' :: rest => some ("am", rest)
  | 'p' :: 'm' :: rest => some ("pm", rest)
  | _ => none

/-- Is the next character a digit (`(?!\d)` checks the negation)? -/
def headIsDigit : List Char → Bool
  | [] => false
  | c :: _ => c.isDigit

/-- One attempt of pattern 1, `(?<!\d)(\d{1,2}):(\d{2})\s*(am|pm)?(?!\d)`, at
the current position (the caller handles the lookbehind).  The regex engine's
greedy/backtracking order is baked in: the hour run is the maximal 1-2 digit
run (shortening it leaves a digit where `:` is required, so a longer run
fails outright); after the two minute digits the engine first tries all
spaces plus `am|pm` followed by `(?!\d)`, then all spaces with no `am|pm`,
then fewer spaces with no `am|pm` — the position then holds a space, which
satisfies `(?!\d)`. -/
def p1MatchAt (l : List Char) : Option (Nat × Nat × Option String) :=
  let ds := l.takeWhile Char.isDigit
  if ds.length = 0 || ds.length > 2 then none
  else
    match l.dropWhile Char.isDigit with
    | ':' :: m1 :: m2 :: r3 =>
      if m1.isDigit && m2.isDigit then
        let hour := digitsToNat ds
        let minute := digVal m1 * 10 + digVal m2
        let sp := r3.takeWhile isPySpace
        let r4 := r3.dropWhile isPySpace
        match ampmAt r4 with
        | some (ap, r5) =>
          if headIsDigit r5 then some (hour, minute, none)
          else some (hour, minute, some ap)
        | none =>
          if !headIsDigit r4 then some (hour, minute, none)
          else if !sp.isEmpty then some (hour, minute, none)
          else none
      else none
    | _ => none

/-- `re.search` scan for pattern 1, threading whether the previous character
was a digit for the `(?<!\d)` lookbehind. -/
def p1Search (prevIsDigit : Bool) : List Char → Option (Nat × Nat × Option String)
  | [] => none
  | c :: rest =>
    match (if prevIsDigit then none else p1MatchAt (c :: rest)) with
    | some r => some r
    | none => p1Search c.isDigit rest

/-- One attempt of pattern 2, `(?<!\d)(\d{1,2})\s*(am|pm)(?!\w)`: maximal 1-2
digit run (a longer run cannot match), spaces, `am|pm`, then no word
character (`\w` as in `BookingAgent.isWordChar`). -/
def p2MatchAt (l : List Char) : Option (Nat × String) :=
  let ds := l.takeWhile Char.isDigit
  if ds.length = 0 || ds.length > 2 then none
  else
    match ampmAt ((l.dropWhile Char.isDigit).dropWhile isPySpace) with
    | some (ap, r3) =>
      match r3 with
      | [] => some (digitsToNat ds, ap)
      | c :: _ => if BookingAgent.isWordChar c then none else some (digitsToNat ds, ap)
    | none => none

/-- `re.search` scan for pattern 2. -/
def p2Search (prevIsDigit : Bool) : List Char → Option (Nat × String)
  | [] => none
  | c :: rest =>
    match (if prevIsDigit then none else p2MatchAt (c :: rest)) with
    | some r => some r
    | none => p2Search c.isDigit rest

/-- One attempt of pattern 3, `(?<!\d)(\d{1,2})(?!\d)`: succeeds iff the
maximal digit run at this position has length 1 or 2. -/
def p3MatchAt (l : List Char) : Option Nat :=
  let ds := l.takeWhile Char.isDigit
  if ds.length = 0 || ds.length > 2 then none else some (digitsToNat ds)

/-- `re.search` scan for pattern 3. -/
def p3Search (prevIsDigit : Bool) : List Char → Option Nat
  | [] => none
  | c :: rest =>
    match (if prevIsDigit then none else p3MatchAt (c :: rest)) with
    | some r => some r
    | none => p3Search c.isDigit rest

/-- The am/pm adjustment of `parse_time` (lines 46-51): `pm` adds 12 unless
the hour is 12, `am` maps 12 to 0. -/
def applyAmPm (hour : Nat) : Option String → Nat
  | some ap =>
    if ap == "pm" && hour != 12 then hour + 12
    else if ap == "am" && hour == 12 then 0
    else hour
  | none => hour

/-- `f"{n:02d}"` for the guarded values (all below 100). -/
def pad2 (n : Nat) : String := if n < 10 then "0" ++ toString n else toString n

/-- `f"{hour:02d}:{minute:02d}"`. -/
def formatHHMM (h m : Nat) : String := pad2 h ++ ":" ++ pad2 m

/-- The range guard of `parse_time` (line 52): only `0 <= hour < 24` and
`0 <= minute < 60` produce a return value; otherwise the pattern loop
continues. -/
def guardTime (h m : Nat) : Option String :=
  if h < 24 && m < 60 then some (formatHHMM h m) else none

/-- Pattern 3 leg of the `for pat in patterns` loop: hour only, minute 0. -/
def tryPattern3 (t : List Char) : Option String :=
  match p3Search false t with
  | some h => guardTime h 0
  | none => none

/-- Pattern 2 leg: hour with mandatory am/pm, minute 0; on guard failure the
loop moves on to pattern 3. -/
def tryPattern2 (t : List Char) : Option String :=
  match p2Search false t with
  | some (h, ap) =>
    match guardTime (applyAmPm h (some ap)) 0 with
    | some s => some s
    | none => tryPattern3 t
  | none => tryPattern3 t

/-- Pattern 1 leg: hour, minutes and optional am/pm; on guard failure the
loop moves on to pattern 2. -/
def tryPattern1 (t : List Char) : Option String :=
  match p1Search false t with
  | some (h, m, ap) =>
    match guardTime (applyAmPm h ap) m with
    | some s => some s
    | none => tryPattern2 t
  | none => tryPattern2 t

/-- Body of `parse_time` after the `text = text.strip().lower()`
reassignment (line 14): the `noon`/`midnight` special cases, then the three
patterns in order. -/
def parseTimeCore (t : List Char) : Option String :=
  if BookingAgent.containsSub t "noon".data then some "12:00"
  else if BookingAgent.containsSub t "midnight".data then some "00:00"
  else tryPattern1 t

/-- `parse_time` (lines 6-54): strip and lowercase, return fixed values for
`noon`/`midnight` substrings, then try the three patterns in order.  The
Python `isinstance` guard (non-string input yields `None`) has no counterpart
since inputs here are strings by type. -/
def parse_time (text : String) : Option String :=
  parseTimeCore ((pyStrip text.data).map Char.toLower)

end Tools

/-- Every value the range guard lets through is an in-range formatted time. -/
theorem Tools.guardTime_ok (h m : Nat) :
    Tools.guardTime h m = none ∨
      ∃ h' m' : Nat, h' < 24 ∧ m' < 60 ∧
        Tools.guardTime h m = some (Tools.formatHHMM h' m') := by
  unfold Tools.guardTime
  by_cases hc : (h < 24 && m < 60) = true
  · have hc' : h < 24 ∧ m < 60 := by simpa using hc
    right
    exact ⟨h, m, hc'.1, hc'.2, by rw [if_pos hc]⟩
  · left
    rw [if_neg hc]

/-- The pattern-3 leg only returns guarded values. -/
theorem Tools.tryPattern3_ok (t : List Char) :
    Tools.tryPattern3 t = none ∨
      ∃ h' m' : Nat, h' < 24 ∧ m' < 60 ∧
        Tools.tryPattern3 t = some (Tools.formatHHMM h' m') := by
  unfold Tools.tryPattern3
  cases hp : Tools.p3Search false t with
  | none => exact Or.inl rfl
  | some h => exact Tools.guardTime_ok h 0

/-- The pattern-2 leg only returns guarded values. -/
theorem Tools.tryPattern2_ok (t : List Char) :
    Tools.tryPattern2 t = none ∨
      ∃ h' m' : Nat, h' < 24 ∧ m' < 60 ∧
        Tools.tryPattern2 t = some (Tools.formatHHMM h' m') := by
  unfold Tools.tryPattern2
  cases hp : Tools.p2Search false t with
  | none => exact Tools.tryPattern3_ok t
  | some r =>
    obtain ⟨h, ap⟩ := r
    dsimp only
    cases hg : Tools.guardTime (Tools.applyAmPm h (some ap)) 0 with
    | none => exact Tools.tryPattern3_ok t
    | some s =>
      rcases Tools.guardTime_ok (Tools.applyAmPm h (some ap)) 0 with hn | ⟨h', m', hh, hm, he⟩
      · rw [hg] at hn
        cases hn
      · rw [hg] at he
        exact Or.inr ⟨h', m', hh, hm, he⟩

/-- The pattern-1 leg only returns guarded values. -/
theorem Tools.tryPattern1_ok (t : List Char) :
    Tools.tryPattern1 t = none ∨
      ∃ h' m' : Nat, h' < 24 ∧ m' < 60 ∧
        Tools.tryPattern1 t = some (Tools.formatHHMM h' m') := by
  unfold Tools.tryPattern1
  cases hp : Tools.p1Search false t with
  | none => exact Tools.tryPattern2_ok t
  | some r =>
    obtain ⟨h, m, ap⟩ := r
    dsimp only
    cases hg : Tools.guardTime (Tools.applyAmPm h ap) m with
    | none => exact Tools.tryPattern2_ok t
    | some s =>
      rcases Tools.guardTime_ok (Tools.applyAmPm h ap) m with hn | ⟨h', m', hh, hm, he⟩
      · rw [hg] at hn
        cases hn
      · rw [hg] at he
        exact Or.inr ⟨h', m', hh, hm, he⟩

/-- C10: for every input string, `parse_time` returns either `None` or a
string `formatHHMM h m` (i.e. `f"{h:02d}:{m:02d}"`, the "HH:MM" 24-hour
form) with `0 ≤ h < 24` and `0 ≤ m < 60` — the range guard dominates every
return, so an out-of-range time is never produced and the function is total
(the Python `isinstance` guard maps non-string input to `None`, outside this
embedding's string-typed domain). -/
theorem C10_parse_time_range (s : String) :
    Tools.parse_time s = none ∨
      ∃ h m : Nat, h < 24 ∧ m < 60 ∧
        Tools.parse_time s = some (Tools.formatHHMM h m) := by
  unfold Tools.parse_time Tools.parseTimeCore
  by_cases h1 : BookingAgent.containsSub ((Tools.pyStrip s.data).map Char.toLower)
      "noon".data = true
  · rw [if_pos h1]
    exact Or.inr ⟨12, 0, by norm_num, by norm_num, by rfl⟩
  · rw [if_neg h1]
    by_cases h2 : BookingAgent.containsSub ((Tools.pyStrip s.data).map Char.toLower)
        "midnight".data = true
    · rw [if_pos h2]
      exact Or.inr ⟨0, 0, by norm_num, by norm_num, by rfl⟩
    · rw [if_neg h2]
      exact Tools.tryPattern1_ok _
